import Mathlib

/-!
Verification development for the DDQ validator's rule engine
(`ddq_validator/rules.py`, `ddq_validator/models.py`, and the driver loop of
`ddq_validator/cli.py`).

The Python code is shallowly embedded: strings are Lean `String`s (processed
through their `data : List Char`), Python regex searches are modelled by
executable Lean functions whose semantics is derived from the concrete
patterns (all of them are alternations of literals, optionally with word
boundaries, whitespace gaps, or a dotted-number form), and the ordered
early-return cascade of `validate_row` is split into one Lean definition per
source block, each falling through to the next.

Case folding is modelled for ASCII letters, which is what Python's `.lower()`
and `re.I` do on the ASCII fragment; the handful of non-ASCII characters that
occur in the source patterns (umlauts) are already lowercase there.
-/

/-! ## Data model (`models.py`) -/

/-- Auxiliary diagnostic values stored in a finding's `details` mapping. -/
inductive DetailVal where
  | str (s : String)
  | bool (b : Bool)
  | int (n : Int)
deriving DecidableEq

/-- `QuestionRow` from `models.py`: canonical representation of one DDQ row. -/
structure QuestionRow where
  sheet : String
  row_idx : Nat
  question_id : Option String
  question_text : String
  answer_text : String
  expected_text : String
deriving DecidableEq

/-- `Finding` from `models.py`: validation result for one DDQ row. -/
structure Finding where
  sheet : String
  row_idx : Nat
  question_id : Option String
  question_text : String
  answer_text : String
  expected_text : String
  status : String
  reason : String
  details : Option (List (String × DetailVal)) := none
deriving DecidableEq

/-- The dictionary produced by `Finding.to_dict` (all fields present, and
`details` flattened to a non-null mapping). -/
structure FindingDict where
  sheet : String
  row_idx : Nat
  question_id : Option String
  question_text : String
  answer_text : String
  expected_text : String
  status : String
  reason : String
  details : List (String × DetailVal)
deriving DecidableEq

/-- `Finding.to_dict` from `models.py`: `asdict(self)` with a `None` `details`
replaced by the empty mapping. -/
def Finding.to_dict (f : Finding) : FindingDict :=
  { sheet := f.sheet, row_idx := f.row_idx, question_id := f.question_id,
    question_text := f.question_text, answer_text := f.answer_text,
    expected_text := f.expected_text, status := f.status, reason := f.reason,
    details := f.details.getD [] }

/-! ## String utilities modelling Python primitives -/

/-- Python whitespace (`str.strip`, `\s`) restricted to its ASCII members. -/
def isPyWs (c : Char) : Bool :=
  c = ' ' || c = '\t' || c = '\n' || c = '\r' || c = '\x0b' || c = '\x0c'

/-- A regex word character (`\w`): ASCII letters and digits, underscore, and
the German letters appearing in the source patterns. -/
def isWordChar (c : Char) : Bool :=
  c.isAlphanum || c = '_' || c = 'ä' || c = 'ö' || c = 'ü' || c = 'Ä' ||
    c = 'Ö' || c = 'Ü' || c = 'ß'

/-- ASCII lowercasing of one character (Python `str.lower` on ASCII). -/
def lowChar (c : Char) : Char :=
  if 'A' ≤ c && c ≤ 'Z' then Char.ofNat (c.toNat + 32) else c

/-- Python `str.lower` (ASCII fragment). -/
def lowerStr (s : String) : String :=
  String.mk (s.data.map lowChar)

/-- Python `str.strip` on a character list. -/
def stripChars (l : List Char) : List Char :=
  ((l.dropWhile isPyWs).reverse.dropWhile isPyWs).reverse

/-- Python `str.strip`. -/
def pyStrip (s : String) : String :=
  String.mk (stripChars s.data)

/-- Does `f` hold on some suffix of the list?  Backbone of regex `search`. -/
def anySuffix (f : List Char → Bool) : List Char → Bool
  | [] => f []
  | c :: rest => f (c :: rest) || anySuffix f rest

/-- Python `needle in hay` (plain substring test). -/
def hasSub (needle hay : String) : Bool :=
  anySuffix (fun t => needle.data.isPrefixOf t) hay.data

/-- Wordness of an optional character; `none` (start/end of string) counts as
a non-word position for `\b`. -/
def wordAt : Option Char → Bool
  | some c => isWordChar c
  | none => false

/-- Does the literal `lit` match at the head of `s`, with a `\b` boundary on
both sides?  `prev` is the character just before `s` in the scanned string. -/
def litHere (lit : List Char) (prev : Option Char) (s : List Char) : Bool :=
  lit.isPrefixOf s && (wordAt prev != wordAt s.head?) &&
    (wordAt lit.getLast? != wordAt (s.drop lit.length).head?)

/-- Scan all start positions for a `\b lit \b` match of any of `lits`. -/
def wbAux (lits : List (List Char)) : Option Char → List Char → Bool
  | prev, [] => lits.any (fun lit => litHere lit prev [])
  | prev, c :: rest =>
      lits.any (fun lit => litHere lit prev (c :: rest)) || wbAux lits (some c) rest

/-- Regex search for `\b(l₁|l₂|...)\b` over word-bounded literal alternatives. -/
def wbSearch (lits : List (List Char)) (s : List Char) : Bool :=
  wbAux lits none s

/-- Skip a run of whitespace (`\s*`). -/
def skipWs (l : List Char) : List Char :=
  l.dropWhile isPyWs

/-- Match a sequence of literal parts separated by `\s*` at the head of `s`.
Every part of the source patterns starts with a non-whitespace character, so
the greedy `\s*` is forced to consume the whole whitespace run; skipping it
entirely is therefore equivalent to the regex semantics. -/
def partsHere : List (List Char) → List Char → Bool
  | [], _ => true
  | p :: ps, s => p.isPrefixOf s && partsHere ps (skipWs (s.drop p.length))

/-- Scan all start positions for a whitespace-gapped parts match. -/
def partsAux (pats : List (List (List Char))) : List Char → Bool
  | [] => pats.any (fun ps => partsHere ps [])
  | c :: rest => pats.any (fun ps => partsHere ps (c :: rest)) || partsAux pats rest

/-! ## Compiled regex patterns from `rules.py`, as Lean search functions -/

/-- Alternatives of `YES_PAT` (word-bounded, case-insensitive). -/
def yesPats : List (List Char) :=
  [("ja").data, ("yes").data, ("y").data, ("bestätigt").data, ("confirmed").data]

/-- Alternatives of `NO_PAT` (word-bounded, case-insensitive). -/
def noPats : List (List Char) :=
  [("nein").data, ("no").data, ("n").data]

/-- Alternatives of `REFUSAL_PAT` (word-bounded, case-insensitive). -/
def refusalPats : List (List Char) :=
  [("refusal").data, ("refuse").data, ("decline").data, ("not to answer").data,
    ("no answer").data]

/-- Alternatives of `SIGNATURE_PAT`, each as literal parts separated by the
pattern's `\s*` gaps. -/
def sigPats : List (List (List Char)) :=
  [[("signature").data], [("signatur").data], [("unterschrift").data],
    [("name").data, ("&").data, ("position").data],
    [("name").data, ("and").data, ("position").data],
    [("ort").data, ("/").data, ("datum").data],
    [("place").data, ("/").data, ("date").data]]

/-- Keyword alternatives of `REFERENCE_PAT` (plain substrings; the pattern has
no word boundaries around them). -/
def refKeywords : List String :=
  ["see", "refer", "reference", "attached", "attachment", "annex", "section",
    "chapter", "appendix", "siehe", "vgl.", "verweis", "anhang", "beigefügt",
    "abschnitt", "kapitel", "ziffer"]

/-- The dotted-number branch `\b\d+(?:\.\d+){1,}\b` of `REFERENCE_PAT`,
anchored at the head of `s`.  Because `\d+` runs are forced to be maximal
(the following atom is `\.` or `\b`, neither of which can absorb a digit), a
match exists at this start iff the first digit run is followed by one full
`.digits` group whose end sits on a word boundary; if a second `.` follows
that group the boundary already holds there, so one group always suffices. -/
def dottedHere (s : List Char) : Bool :=
  let run := s.takeWhile Char.isDigit
  !run.isEmpty &&
    (match s.drop run.length with
     | '.' :: w =>
        let d := w.takeWhile Char.isDigit
        !d.isEmpty && !(wordAt (w.drop d.length).head?)
     | _ => false)

/-- Scan all start positions for the dotted-number branch; the leading `\b`
holds iff the previous character is not a word character. -/
def dottedAux : Option Char → List Char → Bool
  | _, [] => false
  | prev, c :: rest => (!(wordAt prev) && dottedHere (c :: rest)) || dottedAux (some c) rest

/-- The extensions of `FILENAME_PAT`. -/
def fileExts : List (List Char) :=
  [("pdf").data, ("docx").data, ("doc").data, ("xlsx").data, ("xls").data,
    ("pptx").data, ("ppt").data, ("zip").data, ("png").data, ("jpg").data,
    ("jpeg").data, ("csv").data]

/-- A character of the `[\w\-.]` class of `FILENAME_PAT`. -/
def isTokenChar (c : Char) : Bool :=
  isWordChar c || c = '-' || c = '.'

/-- `\b[\w\-.]+\.(EXT)\b` anchored at the head of `s` for some body length,
with `prev` the character before `s`. -/
def fileHere (prev : Option Char) (s : List Char) : Bool :=
  (List.range s.length).any (fun blen =>
    1 ≤ blen && (s.take blen).all isTokenChar &&
    (wordAt prev != wordAt s.head?) &&
    (match s.drop blen with
     | '.' :: rest => fileExts.any (fun ext =>
        ext.isPrefixOf rest && !(wordAt ((rest.drop ext.length).head?)))
     | _ => false))

/-- Scan all start positions for a `FILENAME_PAT` match. -/
def fileAux : Option Char → List Char → Bool
  | _, [] => false
  | prev, c :: rest => fileHere prev (c :: rest) || fileAux (some c) rest

/-! ## Rule configuration (`RuleConfig` in `rules.py`) -/

/-- `RuleConfig`: static configuration of the rule engine. -/
structure RuleConfig where
  forbidden_tokens : List String
  min_len_descriptive : Int := 20
deriving DecidableEq

/-- `RuleConfig.default()` from `rules.py`. -/
def RuleConfig.default : RuleConfig :=
  { forbidden_tokens :=
      ["n/a", "n.a", "na", "not applicable", "tbd", "to be defined", "later",
        "unknown", "k.a", "keine angabe"],
    min_len_descriptive := 20 }

/-! ## Classifiers and detectors (`rules.py`) -/

/-- Lead words of `looks_like_question` (`t.lower().startswith(starters)`). -/
def questionStarters : List String :=
  ["bitte", "please", "sofern", "gab", "wurde", "hat", "ist", "nutzen", "wird"]

/-- Word-bounded verb alternatives searched by `looks_like_question`. -/
def questionVerbPats : List (List Char) :=
  [("beschreiben").data, ("erläutern").data, ("bestätigen").data,
    ("informieren").data, ("detaillieren").data, ("teilen").data]

/-- `looks_like_question` from `rules.py`. -/
def looks_like_question (text : String) : Bool :=
  let t := pyStrip text
  if t = "" then false
  else
    questionStarters.any (fun st => st.data.isPrefixOf (lowerStr t).data) ||
    hasSub "?" t ||
    wbSearch questionVerbPats (lowerStr t).data

/-- Guidance lead-ins of `looks_like_note`. -/
def noteStarters : List String :=
  ["please note", "bitte beachten", "hinweis", "note:", "the following documents"]

/-- `looks_like_note` from `rules.py`. -/
def looks_like_note (expected question_text : String) : Bool :=
  let e := lowerStr (pyStrip expected)
  let q := lowerStr (pyStrip question_text)
  if e = "" then false
  else
    noteStarters.any (fun st => st.data.isPrefixOf e.data) ||
    ((q = "prozesse" || q = "dokumentation" || q = "outsourcing") &&
      (hasSub "please note" e || hasSub "bitte" e || hasSub "note" e))

/-- `is_signature_row` from `rules.py`. -/
def is_signature_row (row : QuestionRow) : Bool :=
  partsAux sigPats (lowerStr row.question_text).data ||
    partsAux sigPats (lowerStr row.expected_text).data

/-- `is_allgemeiner_sheet` from `rules.py` ("general" category). -/
def is_allgemeiner_sheet (sheet : String) : Bool :=
  hasSub "allgemein" (lowerStr sheet) || hasSub "general" (lowerStr sheet)

/-- `is_fondsmanagement_sheet` from `rules.py` ("fund management" category). -/
def is_fondsmanagement_sheet (sheet : String) : Bool :=
  hasSub "fondsmanagement" (lowerStr sheet) || hasSub "fund management" (lowerStr sheet)

/-- `is_innenrevision_sheet` from `rules.py` ("internal audit" category). -/
def is_innenrevision_sheet (sheet : String) : Bool :=
  hasSub "innenrevision" (lowerStr sheet)

/-- `is_regta_sheet` from `rules.py`. -/
def is_regta_sheet (sheet : String) : Bool :=
  hasSub "regta" (lowerStr sheet)

/-- `is_zv_fobu_sheet` from `rules.py`. -/
def is_zv_fobu_sheet (sheet : String) : Bool :=
  hasSub "zv" (lowerStr sheet) && hasSub "fobu" (lowerStr sheet)

/-- `is_verwahrstelle_sheet` from `rules.py` ("custodian" category). -/
def is_verwahrstelle_sheet (sheet : String) : Bool :=
  hasSub "verwahrstelle" (lowerStr sheet)

/-- `expected_requires_filename` from `rules.py`. -/
def expected_requires_filename (expected : String) : Bool :=
  hasSub "name of a file" (lowerStr expected) ||
  hasSub "name of file" (lowerStr expected) ||
  hasSub "dateiname" (lowerStr expected)

/-- `expected_requires_number_and_text` from `rules.py`. -/
def expected_requires_number_and_text (expected : String) : Bool :=
  hasSub "number and text obligatory" (lowerStr expected) ||
  hasSub "nummer und text" (lowerStr expected)

/-- `expected_content_not_relevant` from `rules.py`. -/
def expected_content_not_relevant (expected : String) : Bool :=
  hasSub "content not relevant" (lowerStr expected) ||
  hasSub "fields must only be filled" (lowerStr expected)

/-- `expected_disallow_reference` from `rules.py`. -/
def expected_disallow_reference (expected : String) : Bool :=
  hasSub "reference to a document is not acceptable" (lowerStr expected) ||
  hasSub "reference to another document is not acceptable" (lowerStr expected) ||
  hasSub "only reference to another document is also not acceptable" (lowerStr expected)

/-- `expected_disallow_refusal` from `rules.py`. -/
def expected_disallow_refusal (expected : String) : Bool :=
  hasSub "refusal is not acceptable" (lowerStr expected) ||
  hasSub "any sort of refusal is not acceptable" (lowerStr expected) ||
  (hasSub "not acceptable" (lowerStr expected) && hasSub "n/a" (lowerStr expected))

/-- Interior-dot test for the part of `EMAIL_PAT` after the `@`: the
remainder must split as `[^@\s]+ "." [^@\s]+`, i.e. contain a dot that is
neither its first nor its last character. -/
def emailInterior : List Char → Bool
  | [] => false
  | _ :: t => t.dropLast.contains '.'

/-- `looks_like_email` from `rules.py`: full match of
`^[^@\s]+@[^@\s]+\.[^@\s]+$` against the stripped answer, i.e. no whitespace
anywhere, a unique `@` that is not the first character, and an interior dot
after it. -/
def looks_like_email (answer : String) : Bool :=
  let s := (pyStrip answer).data
  match s.dropWhile (fun c => c != '@') with
  | '@' :: tail =>
      !(s.takeWhile (fun c => c != '@')).isEmpty &&
      s.all (fun c => !isPyWs c) &&
      tail.all (fun c => c != '@') &&
      emailInterior tail
  | _ => false

/-- Split a character list into its newline-separated lines. -/
def splitLinesAux : List Char → List Char → List (List Char)
  | acc, [] => [acc.reverse]
  | acc, '\n' :: rest => acc.reverse :: splitLinesAux [] rest
  | acc, c :: rest => splitLinesAux (c :: acc) rest

/-- `looks_like_phone` from `rules.py`: `PHONE_PAT` chains seven `[0-9]`
atoms with `.*` gaps, and `.` does not cross newlines, so a match exists iff
some line of the answer contains at least seven digit characters. -/
def looks_like_phone (answer : String) : Bool :=
  (splitLinesAux [] answer.data).any (fun line => 7 ≤ (line.filter Char.isDigit).length)

/-- A scheme/`www.` literal of `URL_PAT` at the head of `s`, followed by the
mandatory non-whitespace character of `\S+`. -/
def urlLitHere (lit : List Char) (s : List Char) : Bool :=
  lit.isPrefixOf s &&
    (match (s.drop lit.length).head? with
     | some c => !isPyWs c
     | none => false)

/-- `looks_like_url` from `rules.py`: `URL_PAT.search` on the stripped answer
(case-insensitive), or the fallback dot/no-space/length test. -/
def looks_like_url (answer : String) : Bool :=
  anySuffix
    (fun t => urlLitHere ("http://").data t || urlLitHere ("https://").data t ||
      urlLitHere ("www.").data t)
    (lowerStr (pyStrip answer)).data ||
  (hasSub "." (pyStrip answer) && !(hasSub " " (pyStrip answer)) &&
    4 ≤ (pyStrip answer).length)

/-- `looks_like_filename` from `rules.py` (`FILENAME_PAT.search`,
case-insensitive). -/
def looks_like_filename (answer : String) : Bool :=
  fileAux none (lowerStr answer).data

/-- A letter of the `[A-Za-zÄÖÜäöü]` class of `has_number_and_text`. -/
def isTextLetter (c : Char) : Bool :=
  c.isAlpha || c = 'Ä' || c = 'Ö' || c = 'Ü' || c = 'ä' || c = 'ö' || c = 'ü'

/-- `has_number_and_text` from `rules.py`. -/
def has_number_and_text (answer : String) : Bool :=
  (pyStrip answer).data.any Char.isDigit && (pyStrip answer).data.any isTextLetter

/-- `detect_reference` from `rules.py`: keyword substring (case-insensitive)
or a word-bounded dotted numeric cross-reference. -/
def detect_reference (answer : String) : Bool :=
  refKeywords.any (fun k => hasSub k (lowerStr answer)) ||
    dottedAux none (lowerStr answer).data

/-- `contains_forbidden` from `rules.py`: the first configured token that is
a substring of the stripped, lowercased answer (`none` for empty answers). -/
def contains_forbidden (answer : String) (cfg : RuleConfig) : Option String :=
  let a := lowerStr (pyStrip answer)
  if a = "" then none
  else cfg.forbidden_tokens.find? (fun tok => hasSub tok a)

/-- `expected_yes_no` from `rules.py`. -/
def expected_yes_no (expected : String) : Option String :=
  if hasSub "ja" (lowerStr expected) && !(hasSub "nein" (lowerStr expected)) then
    some "YES"
  else if hasSub "nein" (lowerStr expected) && !(hasSub "ja" (lowerStr expected)) then
    some "NO"
  else none

/-- `should_validate` from `rules.py`: decide whether a row is intended to be
answered. -/
def should_validate (row : QuestionRow) : Bool :=
  if looks_like_note row.expected_text row.question_text then false
  else if is_signature_row row then true
  else if looks_like_question row.question_text then true
  else if hasSub "[text]" (lowerStr row.expected_text) then true
  else if hasSub "obligatory" (lowerStr row.expected_text) ||
      hasSub "not acceptable" (lowerStr row.expected_text) ||
      hasSub "must" (lowerStr row.expected_text) ||
      hasSub "fields must only be filled" (lowerStr row.expected_text) ||
      hasSub "number and text obligatory" (lowerStr row.expected_text) then true
  else if (expected_yes_no row.expected_text).isSome then true
  else false

/-- `is_mandatory` from `rules.py`. -/
def is_mandatory (row : QuestionRow) : Bool :=
  if hasSub "obligatory" (lowerStr row.expected_text) ||
      hasSub "not acceptable" (lowerStr row.expected_text) ||
      hasSub "must" (lowerStr row.expected_text) then true
  else if pyStrip (lowerStr row.expected_text) != "" then true
  else if ("name der").data.isPrefixOf (lowerStr row.question_text).data ||
      ("e-mail").data.isPrefixOf (lowerStr row.question_text).data ||
      ("telefon").data.isPrefixOf (lowerStr row.question_text).data then true
  else false

/-! ## The `validate_row` decision cascade (`rules.py`)

Each `vr*` definition models one early-return block of the source, in the
source's order, and falls through to the next block in its final `else`.
The Python locals `answer` / `expected` (the stripped answer and expected
texts) and `q_lower` / `e_lower` are inlined at each use site. -/

/-- Construct the `Finding` the cascade returns for `row`: every flagging
branch copies all row fields verbatim and sets status/reason/details. -/
def mkF (row : QuestionRow) (status reason : String)
    (details : List (String × DetailVal)) : Finding :=
  { sheet := row.sheet, row_idx := row.row_idx, question_id := row.question_id,
    question_text := row.question_text, answer_text := row.answer_text,
    expected_text := row.expected_text, status := status, reason := reason,
    details := some details }

/-- Word-bounded verb alternatives of the descriptive-question regex in
`validate_row` (`\b(beschreiben|erläutern|detaillieren)\b`). -/
def descVerbPats : List (List Char) :=
  [("beschreiben").data, ("erläutern").data, ("detaillieren").data]

/-- Cascade step 14 (descriptive-question length check). -/
def vrDesc (row : QuestionRow) (cfg : RuleConfig) : Option Finding :=
  if (hasSub "[text]" (lowerStr (pyStrip row.expected_text)) ∨
        wbSearch descVerbPats (lowerStr row.question_text).data) ∧
      ((pyStrip row.answer_text).length : Int) < cfg.min_len_descriptive then
    some (mkF row "INCOMPLETE"
      ("Answer is too short for a descriptive question (min " ++
        toString cfg.min_len_descriptive ++ " chars).")
      [("min_len", DetailVal.int cfg.min_len_descriptive),
        ("actual_len", DetailVal.int ((pyStrip row.answer_text).length : Int))])
  else none

/-- Cascade step 13 (expected yes/no shape check). -/
def vrYesNo (row : QuestionRow) (cfg : RuleConfig) : Option Finding :=
  if expected_yes_no (pyStrip row.expected_text) = some "YES" ∧
      ¬ wbSearch yesPats (lowerStr (pyStrip row.answer_text)).data then
    some (mkF row "INCOMPLETE"
      "Expected a \x27Yes/Confirmed\x27 style answer based on model answer."
      [("expected", DetailVal.str "YES")])
  else if expected_yes_no (pyStrip row.expected_text) = some "NO" ∧
      ¬ wbSearch noPats (lowerStr (pyStrip row.answer_text)).data then
    some (mkF row "INCOMPLETE"
      "Expected a \x27No\x27 style answer based on model answer."
      [("expected", DetailVal.str "NO")])
  else vrDesc row cfg

/-- Cascade step 12 (catch-all reference detection). -/
def vrRef (row : QuestionRow) (cfg : RuleConfig) : Option Finding :=
  if detect_reference (pyStrip row.answer_text) then
    some (mkF row "NEEDS_EVIDENCE"
      "Answer references an attachment/section; requires document evidence retrieval."
      [("reference_detected", DetailVal.bool true)])
  else vrYesNo row cfg

/-- Cascade step 11 (internal-audit sheet: number+text requirement). -/
def vrInnen (row : QuestionRow) (cfg : RuleConfig) : Option Finding :=
  if is_innenrevision_sheet row.sheet ∧
      expected_requires_number_and_text (pyStrip row.expected_text) ∧
      ¬ has_number_and_text (pyStrip row.answer_text) then
    some (mkF row "INCOMPLETE" "Expected both a number and descriptive text."
      [("expected", DetailVal.str "number+text")])
  else vrRef row cfg

/-- Cascade step 10 (custodian sheet: disallow-reference, then
disallow-refusal). -/
def vrVerwahr (row : QuestionRow) (cfg : RuleConfig) : Option Finding :=
  if is_verwahrstelle_sheet row.sheet ∧
      expected_disallow_reference (pyStrip row.expected_text) ∧
      detect_reference (pyStrip row.answer_text) then
    some (mkF row "REJECTED"
      "Reference-only answers are not acceptable; provide substantive text."
      [("reference_only", DetailVal.bool true)])
  else if is_verwahrstelle_sheet row.sheet ∧
      expected_disallow_refusal (pyStrip row.expected_text) ∧
      wbSearch refusalPats (lowerStr (pyStrip row.answer_text)).data then
    some (mkF row "REJECTED"
      "Refusal-style answers are not acceptable for this question."
      [("refusal", DetailVal.bool true)])
  else vrInnen row cfg

/-- Cascade step 9 (zv+fobu sheet: disallow-reference, then disallow-refusal). -/
def vrZvFobu (row : QuestionRow) (cfg : RuleConfig) : Option Finding :=
  if is_zv_fobu_sheet row.sheet ∧
      expected_disallow_reference (pyStrip row.expected_text) ∧
      detect_reference (pyStrip row.answer_text) then
    some (mkF row "REJECTED"
      "Reference-only answers are not acceptable; provide substantive text."
      [("reference_only", DetailVal.bool true)])
  else if is_zv_fobu_sheet row.sheet ∧
      expected_disallow_refusal (pyStrip row.expected_text) ∧
      wbSearch refusalPats (lowerStr (pyStrip row.answer_text)).data then
    some (mkF row "REJECTED"
      "Refusal-style answers are not acceptable for this question."
      [("refusal", DetailVal.bool true)])
  else vrVerwahr row cfg

/-- Cascade step 8 (regta sheet: disallow-reference, then disallow-refusal). -/
def vrRegta (row : QuestionRow) (cfg : RuleConfig) : Option Finding :=
  if is_regta_sheet row.sheet ∧
      expected_disallow_reference (pyStrip row.expected_text) ∧
      detect_reference (pyStrip row.answer_text) then
    some (mkF row "REJECTED"
      "Reference-only answers are not acceptable; provide substantive text."
      [("reference_only", DetailVal.bool true)])
  else if is_regta_sheet row.sheet ∧
      expected_disallow_refusal (pyStrip row.expected_text) ∧
      wbSearch refusalPats (lowerStr (pyStrip row.answer_text)).data then
    some (mkF row "REJECTED"
      "Refusal-style answers are not acceptable for this question."
      [("refusal", DetailVal.bool true)])
  else vrZvFobu row cfg

/-- Cascade step 7 (fund-management sheet: disallow-reference with the policy
exemption, then disallow-refusal). -/
def vrFM (row : QuestionRow) (cfg : RuleConfig) : Option Finding :=
  if is_fondsmanagement_sheet row.sheet ∧
      expected_disallow_reference (pyStrip row.expected_text) ∧
      detect_reference (pyStrip row.answer_text) ∧
      ¬ hasSub "policy" (lowerStr (pyStrip row.answer_text)) then
    some (mkF row "REJECTED"
      "Reference-only answers are not acceptable; provide substantive text."
      [("reference_only", DetailVal.bool true)])
  else if is_fondsmanagement_sheet row.sheet ∧
      expected_disallow_refusal (pyStrip row.expected_text) ∧
      wbSearch refusalPats (lowerStr (pyStrip row.answer_text)).data then
    some (mkF row "REJECTED"
      "Refusal-style answers are not acceptable for this question."
      [("refusal", DetailVal.bool true)])
  else vrRegta row cfg

/-- Cascade step 6 (general sheet: number+text, email, phone, URL shape
checks, then the content-not-relevant early pass). -/
def vrGeneral (row : QuestionRow) (cfg : RuleConfig) : Option Finding :=
  if is_allgemeiner_sheet row.sheet ∧
      expected_requires_number_and_text (pyStrip row.expected_text) ∧
      ¬ has_number_and_text (pyStrip row.answer_text) then
    some (mkF row "INCOMPLETE" "Expected both a number and descriptive text."
      [("expected", DetailVal.str "number+text")])
  else if is_allgemeiner_sheet row.sheet ∧
      (hasSub "e-mail" (lowerStr row.question_text) ∨
        hasSub "email" (lowerStr row.question_text) ∨
        hasSub "e-mail" (lowerStr (pyStrip row.expected_text))) ∧
      ¬ looks_like_email (pyStrip row.answer_text) then
    some (mkF row "INCOMPLETE" "Expected a valid email address."
      [("expected", DetailVal.str "email")])
  else if is_allgemeiner_sheet row.sheet ∧
      (hasSub "telefon" (lowerStr row.question_text) ∨
        hasSub "phone" (lowerStr row.question_text) ∨
        hasSub "telefon" (lowerStr (pyStrip row.expected_text))) ∧
      ¬ looks_like_phone (pyStrip row.answer_text) then
    some (mkF row "INCOMPLETE" "Expected a valid phone number."
      [("expected", DetailVal.str "phone")])
  else if is_allgemeiner_sheet row.sheet ∧
      (hasSub "website" (lowerStr row.question_text) ∨
        hasSub "web" (lowerStr row.question_text)) ∧
      ¬ looks_like_url (pyStrip row.answer_text) then
    some (mkF row "INCOMPLETE" "Expected a website/URL."
      [("expected", DetailVal.str "url")])
  else if is_allgemeiner_sheet row.sheet ∧
      expected_content_not_relevant (pyStrip row.expected_text) then
    none
  else vrFM row cfg

/-- Cascade step 5 (expected-filename shape check). -/
def vrFilename (row : QuestionRow) (cfg : RuleConfig) : Option Finding :=
  if expected_requires_filename (pyStrip row.expected_text) ∧
      ¬ looks_like_filename (pyStrip row.answer_text) then
    some (mkF row "INCOMPLETE" "Expected a filename (e.g., .pdf/.docx) but none found."
      [("expected", DetailVal.str "filename")])
  else vrGeneral row cfg

/-- Cascade step 4 (forbidden placeholder token on a mandatory field). -/
def vrForbidden (row : QuestionRow) (cfg : RuleConfig) : Option Finding :=
  match contains_forbidden (pyStrip row.answer_text) cfg with
  | some tok =>
      if is_mandatory row then
        some (mkF row "REJECTED"
          ("Answer contains forbidden placeholder: \x27" ++ tok ++ "\x27.")
          [("forbidden", DetailVal.str tok)])
      else vrFilename row cfg
  | none => vrFilename row cfg

/-- Cascade step 3 (empty answer on a mandatory field). -/
def vrEmpty (row : QuestionRow) (cfg : RuleConfig) : Option Finding :=
  if pyStrip row.answer_text = "" ∧ is_mandatory row then
    some (mkF row "REJECTED" "Mandatory field is empty."
      [("mandatory", DetailVal.bool true)])
  else if pyStrip row.answer_text = "" then none
  else vrForbidden row cfg

/-- Cascade step 2 (signature rows: incomplete if empty or forbidden token,
otherwise pass outright). -/
def vrSig (row : QuestionRow) (cfg : RuleConfig) : Option Finding :=
  if is_signature_row row ∧
      (pyStrip row.answer_text = "" ∨
        (contains_forbidden (pyStrip row.answer_text) cfg).isSome) then
    some (mkF row "INCOMPLETE" "Signature/name/date is missing."
      [("expected", DetailVal.str "signature")])
  else if is_signature_row row then none
  else vrEmpty row cfg

/-- `validate_row` from `rules.py`: a `Finding` for flagged rows only; rows
that fail `should_validate` or pass all checks return `none`. -/
def validate_row (row : QuestionRow) (cfg : RuleConfig) : Option Finding :=
  if should_validate row then vrSig row cfg else none

/-! ## The driver loop (`cli.py`, command `validate`) -/

/-- The `SKIPPED` placeholder the driver synthesizes for non-validated rows. -/
def skipped_finding (row : QuestionRow) : Finding :=
  { sheet := row.sheet, row_idx := row.row_idx, question_id := row.question_id,
    question_text := row.question_text, answer_text := row.answer_text,
    expected_text := row.expected_text, status := "SKIPPED",
    reason := "Row is not a question or validation rule does not apply.",
    details := some [("validated", DetailVal.bool false)] }

/-- The `OK` placeholder the driver synthesizes for rows that pass all checks. -/
def ok_finding (row : QuestionRow) : Finding :=
  { sheet := row.sheet, row_idx := row.row_idx, question_id := row.question_id,
    question_text := row.question_text, answer_text := row.answer_text,
    expected_text := row.expected_text, status := "OK",
    reason := "Passed rule checks.",
    details := some [("validated", DetailVal.bool true)] }

/-- The per-row result loop of the `validate` command in `cli.py` (the
`results` list; the separate `findings` accumulator only feeds the optional
LLM refinement and is not modelled). -/
def validate_results : List QuestionRow → RuleConfig → List Finding
  | [], _ => []
  | row :: rest, cfg =>
      (if should_validate row then
        (match validate_row row cfg with
         | some f => f
         | none => ok_finding row)
       else skipped_finding row) :: validate_results rest cfg

/-! ## Specification-side definition for the sheet-category claim -/

/-- The sheet-category test as the specification words it: the category
keyword occurs in the sheet name as a case-insensitive substring. -/
def specKeywordMatch (kw sheet : String) : Bool :=
  hasSub (lowerStr kw) (lowerStr sheet)

/-! ## Concrete rows and findings used to witness the theorems -/

/-- A mandatory question answered with the empty string. -/
def c7row : QuestionRow :=
  ⟨"Sheet X", 3, none, "Wurde das geprüft?", "", "Field is obligatory"⟩

/-- The rejection the cascade produces for `c7row`. -/
def c7fnd : Finding :=
  mkF c7row "REJECTED" "Mandatory field is empty." [("mandatory", DetailVal.bool true)]

/-- A question answered only by a document reference, on an uncategorized
sheet. -/
def c10row : QuestionRow :=
  ⟨"Other", 11, some "Q7", "Did you check?", "See annex 4", ""⟩

/-- The needs-evidence finding the cascade produces for `c10row`. -/
def c10fnd : Finding :=
  mkF c10row "NEEDS_EVIDENCE"
    "Answer references an attachment/section; requires document evidence retrieval."
    [("reference_detected", DetailVal.bool true)]

/-- A zv+fobu row whose expected text disallows references and whose answer
mentions a policy while referring to an annex. -/
def c1row : QuestionRow :=
  ⟨"ZV und FoBu", 4, none, "Please describe the process?",
    "We refer to our policy, see annex 2.",
    "Only reference to another document is also not acceptable"⟩

/-- An uncategorized row whose answer is the C4 reference text. -/
def c4row : QuestionRow :=
  ⟨"Depotbank", 5, some "4.2", "Please describe the controls?",
    "See attachment Annex 3", ""⟩

/-! ## Invariants of the cascade's findings -/

/-- Every `Finding` produced by the cascade copies the row's identifying and
text fields verbatim, carries a flagged status, a non-empty reason, and a
non-null, non-empty details mapping. -/
def FindingInv (row : QuestionRow) (f : Finding) : Prop :=
  f.sheet = row.sheet ∧ f.row_idx = row.row_idx ∧ f.question_id = row.question_id ∧
  f.question_text = row.question_text ∧ f.answer_text = row.answer_text ∧
  f.expected_text = row.expected_text ∧
  (f.status = "INCOMPLETE" ∨ f.status = "REJECTED" ∨ f.status = "NEEDS_EVIDENCE") ∧
  f.reason ≠ "" ∧ f.details ≠ none ∧ f.details ≠ some []

lemma mk_append (l1 l2 : List Char) :
    String.mk l1 ++ String.mk l2 = String.mk (l1 ++ l2) := rfl

lemma append3_ne_empty (a b c : String) (ha : a.data ≠ []) : a ++ b ++ c ≠ "" := by
  cases a with | mk l1 =>
  cases b with | mk l2 =>
  cases c with | mk l3 =>
  rw [mk_append, mk_append]
  intro hc
  apply ha
  have h2 : l1 ++ l2 ++ l3 = [] := congrArg String.data hc
  exact (List.append_eq_nil.mp (List.append_eq_nil.mp h2).1).1

lemma mkF_inv (row : QuestionRow) (st rs : String) (d : List (String × DetailVal))
    (hst : st = "INCOMPLETE" ∨ st = "REJECTED" ∨ st = "NEEDS_EVIDENCE")
    (hrs : rs ≠ "") (hd : d ≠ []) : FindingInv row (mkF row st rs d) := by
  refine ⟨rfl, rfl, rfl, rfl, rfl, rfl, hst, hrs, by simp [mkF], by simp [mkF, hd]⟩

lemma vrDesc_inv (row : QuestionRow) (cfg : RuleConfig) (f : Finding)
    (h : vrDesc row cfg = some f) : FindingInv row f := by
  simp only [vrDesc] at h
  split at h
  · exact (Option.some.inj h) ▸
      mkF_inv _ _ _ _ (Or.inl rfl)
        (append3_ne_empty _ _ _ (by decide)) (by simp)
  · exact absurd h (by simp)

lemma vrYesNo_inv (row : QuestionRow) (cfg : RuleConfig) (f : Finding)
    (h : vrYesNo row cfg = some f) : FindingInv row f := by
  simp only [vrYesNo] at h
  split at h
  · exact (Option.some.inj h) ▸ mkF_inv _ _ _ _ (Or.inl rfl) (by decide) (by simp)
  · split at h
    · exact (Option.some.inj h) ▸ mkF_inv _ _ _ _ (Or.inl rfl) (by decide) (by simp)
    · exact vrDesc_inv row cfg f h

lemma vrRef_inv (row : QuestionRow) (cfg : RuleConfig) (f : Finding)
    (h : vrRef row cfg = some f) : FindingInv row f := by
  simp only [vrRef] at h
  split at h
  · exact (Option.some.inj h) ▸
      mkF_inv _ _ _ _ (Or.inr (Or.inr rfl)) (by decide) (by simp)
  · exact vrYesNo_inv row cfg f h

lemma vrInnen_inv (row : QuestionRow) (cfg : RuleConfig) (f : Finding)
    (h : vrInnen row cfg = some f) : FindingInv row f := by
  simp only [vrInnen] at h
  split at h
  · exact (Option.some.inj h) ▸ mkF_inv _ _ _ _ (Or.inl rfl) (by decide) (by simp)
  · exact vrRef_inv row cfg f h

lemma vrVerwahr_inv (row : QuestionRow) (cfg : RuleConfig) (f : Finding)
    (h : vrVerwahr row cfg = some f) : FindingInv row f := by
  simp only [vrVerwahr] at h
  split at h
  · exact (Option.some.inj h) ▸
      mkF_inv _ _ _ _ (Or.inr (Or.inl rfl)) (by decide) (by simp)
  · split at h
    · exact (Option.some.inj h) ▸
        mkF_inv _ _ _ _ (Or.inr (Or.inl rfl)) (by decide) (by simp)
    · exact vrInnen_inv row cfg f h

lemma vrZvFobu_inv (row : QuestionRow) (cfg : RuleConfig) (f : Finding)
    (h : vrZvFobu row cfg = some f) : FindingInv row f := by
  simp only [vrZvFobu] at h
  split at h
  · exact (Option.some.inj h) ▸
      mkF_inv _ _ _ _ (Or.inr (Or.inl rfl)) (by decide) (by simp)
  · split at h
    · exact (Option.some.inj h) ▸
        mkF_inv _ _ _ _ (Or.inr (Or.inl rfl)) (by decide) (by simp)
    · exact vrVerwahr_inv row cfg f h

lemma vrRegta_inv (row : QuestionRow) (cfg : RuleConfig) (f : Finding)
    (h : vrRegta row cfg = some f) : FindingInv row f := by
  simp only [vrRegta] at h
  split at h
  · exact (Option.some.inj h) ▸
      mkF_inv _ _ _ _ (Or.inr (Or.inl rfl)) (by decide) (by simp)
  · split at h
    · exact (Option.some.inj h) ▸
        mkF_inv _ _ _ _ (Or.inr (Or.inl rfl)) (by decide) (by simp)
    · exact vrZvFobu_inv row cfg f h

lemma vrFM_inv (row : QuestionRow) (cfg : RuleConfig) (f : Finding)
    (h : vrFM row cfg = some f) : FindingInv row f := by
  simp only [vrFM] at h
  split at h
  · exact (Option.some.inj h) ▸
      mkF_inv _ _ _ _ (Or.inr (Or.inl rfl)) (by decide) (by simp)
  · split at h
    · exact (Option.some.inj h) ▸
        mkF_inv _ _ _ _ (Or.inr (Or.inl rfl)) (by decide) (by simp)
    · exact vrRegta_inv row cfg f h

lemma vrGeneral_inv (row : QuestionRow) (cfg : RuleConfig) (f : Finding)
    (h : vrGeneral row cfg = some f) : FindingInv row f := by
  simp only [vrGeneral] at h
  split at h
  · exact (Option.some.inj h) ▸ mkF_inv _ _ _ _ (Or.inl rfl) (by decide) (by simp)
  · split at h
    · exact (Option.some.inj h) ▸ mkF_inv _ _ _ _ (Or.inl rfl) (by decide) (by simp)
    · split at h
      · exact (Option.some.inj h) ▸ mkF_inv _ _ _ _ (Or.inl rfl) (by decide) (by simp)
      · split at h
        · exact (Option.some.inj h) ▸ mkF_inv _ _ _ _ (Or.inl rfl) (by decide) (by simp)
        · split at h
          · exact absurd h (by simp)
          · exact vrFM_inv row cfg f h

lemma vrFilename_inv (row : QuestionRow) (cfg : RuleConfig) (f : Finding)
    (h : vrFilename row cfg = some f) : FindingInv row f := by
  simp only [vrFilename] at h
  split at h
  · exact (Option.some.inj h) ▸ mkF_inv _ _ _ _ (Or.inl rfl) (by decide) (by simp)
  · exact vrGeneral_inv row cfg f h

lemma vrForbidden_inv (row : QuestionRow) (cfg : RuleConfig) (f : Finding)
    (h : vrForbidden row cfg = some f) : FindingInv row f := by
  simp only [vrForbidden] at h
  split at h
  · split at h
    · exact (Option.some.inj h) ▸
        mkF_inv _ _ _ _ (Or.inr (Or.inl rfl))
          (append3_ne_empty _ _ _ (by decide)) (by simp)
    · exact vrFilename_inv row cfg f h
  · exact vrFilename_inv row cfg f h

lemma vrEmpty_inv (row : QuestionRow) (cfg : RuleConfig) (f : Finding)
    (h : vrEmpty row cfg = some f) : FindingInv row f := by
  simp only [vrEmpty] at h
  split at h
  · exact (Option.some.inj h) ▸
      mkF_inv _ _ _ _ (Or.inr (Or.inl rfl)) (by decide) (by simp)
  · split at h
    · exact absurd h (by simp)
    · exact vrForbidden_inv row cfg f h

lemma vrSig_inv (row : QuestionRow) (cfg : RuleConfig) (f : Finding)
    (h : vrSig row cfg = some f) : FindingInv row f := by
  simp only [vrSig] at h
  split at h
  · exact (Option.some.inj h) ▸ mkF_inv _ _ _ _ (Or.inl rfl) (by decide) (by simp)
  · split at h
    · exact absurd h (by simp)
    · exact vrEmpty_inv row cfg f h

lemma validate_row_inv (row : QuestionRow) (cfg : RuleConfig) (f : Finding)
    (h : validate_row row cfg = some f) : FindingInv row f := by
  simp only [validate_row] at h
  split at h
  · exact vrSig_inv row cfg f h
  · exact absurd h (by simp)

/-! ## Claim theorems -/

/-- C5: the engine's driver produces one output per input row, in order: a
`SKIPPED` placeholder when `should_validate` is false, an `OK` placeholder
when `should_validate` holds and `validate_row` returns none, and the finding
returned by `validate_row` otherwise. -/
theorem c5_theorem (rows : List QuestionRow) (cfg : RuleConfig) :
    (validate_results rows cfg).length = rows.length ∧
    validate_results rows cfg = rows.map (fun row =>
      if should_validate row then
        (match validate_row row cfg with
         | some f => f
         | none => ok_finding row)
      else skipped_finding row) := by
  constructor
  · induction rows with
    | nil => rfl
    | cons r rest ih => simp only [validate_results, List.length_cons, ih]
  · induction rows with
    | nil => rfl
    | cons r rest ih => simp only [validate_results, List.map_cons, ih]

/-- C6: a signature row whose trimmed answer is non-empty and free of
forbidden tokens passes: `validate_row` returns none, bypassing all later
checks of the cascade. -/
theorem c6_theorem (row : QuestionRow) (cfg : RuleConfig)
    (hsig : is_signature_row row = true)
    (hans : pyStrip row.answer_text ≠ "")
    (hforb : contains_forbidden (pyStrip row.answer_text) cfg = none) :
    validate_row row cfg = none := by
  by_cases hsv : should_validate row
  · simp [validate_row, hsv, vrSig, hsig, hans, hforb]
  · simp [validate_row, hsv]

/-- Witness for C6: a concrete clean signature row passes. -/
theorem c6_witness :
    validate_row
      ⟨"Fund Management", 9, none, "Place / Date, Signature", "John Doe, 2024-01-01", ""⟩
      RuleConfig.default = none :=
  c6_theorem _ RuleConfig.default (by decide) (by decide) (by decide)

/-- C7: every finding `validate_row` returns has a status among INCOMPLETE,
REJECTED and NEEDS_EVIDENCE (never OK or SKIPPED), a non-empty reason, and a
non-null, non-empty details mapping identifying the fired sub-rule. -/
theorem c7_theorem (row : QuestionRow) (cfg : RuleConfig) (f : Finding)
    (h : validate_row row cfg = some f) :
    (f.status = "INCOMPLETE" ∨ f.status = "REJECTED" ∨ f.status = "NEEDS_EVIDENCE") ∧
    f.reason ≠ "" ∧ f.details ≠ none ∧ f.details ≠ some [] := by
  obtain ⟨-, -, -, -, -, -, hst, hrs, hd1, hd2⟩ := validate_row_inv row cfg f h
  exact ⟨hst, hrs, hd1, hd2⟩

/-- Witness for C7 at a concrete mandatory-empty row. -/
theorem c7_witness :
    (c7fnd.status = "INCOMPLETE" ∨ c7fnd.status = "REJECTED" ∨
      c7fnd.status = "NEEDS_EVIDENCE") ∧
    c7fnd.reason ≠ "" ∧ c7fnd.details ≠ none ∧ c7fnd.details ≠ some [] :=
  c7_theorem c7row RuleConfig.default c7fnd (by decide)

/-- C8: the engine is deterministic; two runs of `validate_row` on the same
row and config agree (both none, or both the same finding). -/
theorem c8_theorem (row : QuestionRow) (cfg : RuleConfig) :
    (validate_row row cfg = none ∧ validate_row row cfg = none) ∨
    ∃ f : Finding, validate_row row cfg = some f ∧ validate_row row cfg = some f := by
  cases h : validate_row row cfg with
  | none => exact Or.inl ⟨rfl, rfl⟩
  | some f => exact Or.inr ⟨f, rfl, rfl⟩

/-- C9: `Finding.to_dict` reproduces every field under its field name and
maps `details` to a non-null mapping: the empty one when `details` was
`none`, the original one otherwise. -/
theorem c9_theorem (f : Finding) :
    f.to_dict.sheet = f.sheet ∧ f.to_dict.row_idx = f.row_idx ∧
    f.to_dict.question_id = f.question_id ∧
    f.to_dict.question_text = f.question_text ∧
    f.to_dict.answer_text = f.answer_text ∧
    f.to_dict.expected_text = f.expected_text ∧
    f.to_dict.status = f.status ∧ f.to_dict.reason = f.reason ∧
    f.to_dict.details = (match f.details with
      | none => []
      | some d => d) := by
  cases hd : f.details with
  | none =>
      exact ⟨rfl, rfl, rfl, rfl, rfl, rfl, rfl, rfl, by simp [Finding.to_dict, hd]⟩
  | some d =>
      exact ⟨rfl, rfl, rfl, rfl, rfl, rfl, rfl, rfl, by simp [Finding.to_dict, hd]⟩

/-- C10: any finding returned by `validate_row` carries the row's sheet,
row index, question id, question text, answer text and expected text
verbatim. -/
theorem c10_theorem (row : QuestionRow) (cfg : RuleConfig) (f : Finding)
    (h : validate_row row cfg = some f) :
    f.sheet = row.sheet ∧ f.row_idx = row.row_idx ∧
    f.question_id = row.question_id ∧ f.question_text = row.question_text ∧
    f.answer_text = row.answer_text ∧ f.expected_text = row.expected_text := by
  obtain ⟨h1, h2, h3, h4, h5, h6, -, -, -, -⟩ := validate_row_inv row cfg f h
  exact ⟨h1, h2, h3, h4, h5, h6⟩

/-- Witness for C10 at a concrete reference-only row. -/
theorem c10_witness :
    c10fnd.sheet = c10row.sheet ∧ c10fnd.row_idx = c10row.row_idx ∧
    c10fnd.question_id = c10row.question_id ∧
    c10fnd.question_text = c10row.question_text ∧
    c10fnd.answer_text = c10row.answer_text ∧
    c10fnd.expected_text = c10row.expected_text :=
  c10_theorem c10row RuleConfig.default c10fnd (by decide)

/-- C1 (amended): for rows reaching the regta, zv+fobu or custodian branch
(gate passed, not a signature row, non-empty answer, no forbidden-token or
filename rejection, sheet neither general- nor fund-management-category),
when the expected text disallows references and a reference is detected the
branch flags REJECTED unconditionally — these branches apply the
disallow-reference check WITHOUT the fund-management branch's "policy"
exemption, so the answer may well mention "policy". -/
theorem c1_theorem (row : QuestionRow) (cfg : RuleConfig)
    (hsv : should_validate row = true)
    (hsig : is_signature_row row = false)
    (hans : pyStrip row.answer_text ≠ "")
    (hforb : contains_forbidden (pyStrip row.answer_text) cfg = none)
    (hfn : expected_requires_filename (pyStrip row.expected_text) = false)
    (hgen : is_allgemeiner_sheet row.sheet = false)
    (hfm : is_fondsmanagement_sheet row.sheet = false)
    (hcat : is_regta_sheet row.sheet = true ∨ is_zv_fobu_sheet row.sheet = true ∨
      is_verwahrstelle_sheet row.sheet = true)
    (hdr : expected_disallow_reference (pyStrip row.expected_text) = true)
    (hdet : detect_reference (pyStrip row.answer_text) = true) :
    validate_row row cfg = some (mkF row "REJECTED"
      "Reference-only answers are not acceptable; provide substantive text."
      [("reference_only", DetailVal.bool true)]) := by
  have h0 : validate_row row cfg = vrRegta row cfg := by
    simp [validate_row, hsv, vrSig, hsig, vrEmpty, hans, vrForbidden, hforb,
      vrFilename, hfn, vrGeneral, hgen, vrFM, hfm]
  rw [h0]
  rcases hcat with hr | hz | hv
  · simp [vrRegta, hr, hdr, hdet]
  · by_cases hr : is_regta_sheet row.sheet
    · simp [vrRegta, hr, hdr, hdet]
    · simp [vrRegta, hr, vrZvFobu, hz, hdr, hdet]
  · by_cases hr : is_regta_sheet row.sheet
    · simp [vrRegta, hr, hdr, hdet]
    · by_cases hz : is_zv_fobu_sheet row.sheet
      · simp [vrRegta, hr, vrZvFobu, hz, hdr, hdet]
      · simp [vrRegta, hr, vrZvFobu, hz, vrVerwahr, hv, hdr, hdet]

/-- Counterexample to C1 as stated: on a regta sheet the disallow-reference
check flags REJECTED although the answer mentions "policy", while the very
same row on a fund-management sheet is NOT rejected by that check (it falls
through to the NEEDS_EVIDENCE catch-all) — the branches are not the same. -/
theorem c1_counterexample :
    is_regta_sheet "RegTA" = true ∧
    hasSub "policy" (lowerStr (pyStrip "see policy")) = true ∧
    validate_row
      ⟨"RegTA", 1, none, "Please describe?", "see policy",
        "Reference to a document is not acceptable"⟩ RuleConfig.default
      = some (mkF
          ⟨"RegTA", 1, none, "Please describe?", "see policy",
            "Reference to a document is not acceptable"⟩
          "REJECTED"
          "Reference-only answers are not acceptable; provide substantive text."
          [("reference_only", DetailVal.bool true)]) ∧
    validate_row
      ⟨"Fund Management", 1, none, "Please describe?", "see policy",
        "Reference to a document is not acceptable"⟩ RuleConfig.default
      = some (mkF
          ⟨"Fund Management", 1, none, "Please describe?", "see policy",
            "Reference to a document is not acceptable"⟩
          "NEEDS_EVIDENCE"
          "Answer references an attachment/section; requires document evidence retrieval."
          [("reference_detected", DetailVal.bool true)]) :=
  ⟨by decide, by decide, by decide, by decide⟩

/-- Witness for C1: a concrete zv+fobu row whose answer mentions "policy" is
still rejected by the disallow-reference check. -/
theorem c1_witness :
    validate_row c1row RuleConfig.default
      = some (mkF c1row "REJECTED"
          "Reference-only answers are not acceptable; provide substantive text."
          [("reference_only", DetailVal.bool true)]) :=
  c1_theorem c1row RuleConfig.default (by decide) (by decide) (by decide)
    (by decide) (by decide) (by decide) (by decide)
    (Or.inr (Or.inl (by decide))) (by decide) (by decide)

/-- C2 (amended): a non-signature row with empty answer text and
`is_mandatory` true is flagged REJECTED by `validate_row`, provided the row
passes the `should_validate` gate (rows filtered out by the gate, such as
guidance notes, return no finding). -/
theorem c2_theorem (row : QuestionRow) (cfg : RuleConfig)
    (ha : row.answer_text = "")
    (hm : is_mandatory row = true)
    (hsig : is_signature_row row = false)
    (hsv : should_validate row = true) :
    validate_row row cfg = some (mkF row "REJECTED" "Mandatory field is empty."
      [("mandatory", DetailVal.bool true)]) := by
  simp [validate_row, hsv, vrSig, hsig, vrEmpty, ha, hm,
    show pyStrip "" = "" from rfl]

/-- Counterexample to C2 as stated: a mandatory, empty-answer, non-signature
row whose expected text is a guidance note fails `should_validate`, so
`validate_row` returns none instead of a REJECTED finding. -/
theorem c2_counterexample :
    is_mandatory ⟨"", 1, none, "", "", "please note"⟩ = true ∧
    is_signature_row ⟨"", 1, none, "", "", "please note"⟩ = false ∧
    validate_row ⟨"", 1, none, "", "", "please note"⟩ RuleConfig.default = none :=
  ⟨by decide, by decide, by decide⟩

/-- Witness for C2 at a concrete mandatory question with an empty answer. -/
theorem c2_witness :
    validate_row
      ⟨"Allgemeiner Teil", 7, none, "Bitte bestätigen Sie die Angaben.", "",
        "Field is obligatory"⟩ RuleConfig.default
      = some (mkF
          ⟨"Allgemeiner Teil", 7, none, "Bitte bestätigen Sie die Angaben.", "",
            "Field is obligatory"⟩
          "REJECTED" "Mandatory field is empty."
          [("mandatory", DetailVal.bool true)]) :=
  c2_theorem _ RuleConfig.default rfl (by decide) (by decide) (by decide)

/-- C3 (amended): each sheet-category classifier holds exactly when the sheet
name contains the source's keyword(s) as a case-insensitive substring:
"allgemein" or "general" for the general category, "fondsmanagement" or
"fund management" for fund management, "innenrevision" for internal audit,
"regta" for regta, both "zv" and "fobu" for the zv+fobu category, and
"verwahrstelle" for the custodian category. -/
theorem c3_theorem (s : String) :
    is_allgemeiner_sheet s =
      (specKeywordMatch "allgemein" s || specKeywordMatch "general" s) ∧
    is_fondsmanagement_sheet s =
      (specKeywordMatch "fondsmanagement" s || specKeywordMatch "fund management" s) ∧
    is_innenrevision_sheet s = specKeywordMatch "innenrevision" s ∧
    is_regta_sheet s = specKeywordMatch "regta" s ∧
    is_zv_fobu_sheet s = (specKeywordMatch "zv" s && specKeywordMatch "fobu" s) ∧
    is_verwahrstelle_sheet s = specKeywordMatch "verwahrstelle" s :=
  ⟨rfl, rfl, rfl, rfl, rfl, rfl⟩

/-- Counterexample to C3 as stated: the internal-audit and custodian
classifiers do not fire on names containing "internal audit" / "custodian"
(they look for the German keywords), and the general classifier fires on
"Allgemeiner Teil", which does not contain "general". -/
theorem c3_counterexample :
    specKeywordMatch "internal audit" "Internal Audit" = true ∧
    is_innenrevision_sheet "Internal Audit" = false ∧
    specKeywordMatch "custodian" "Custodian Bank" = true ∧
    is_verwahrstelle_sheet "Custodian Bank" = false ∧
    specKeywordMatch "general" "Allgemeiner Teil" = false ∧
    is_allgemeiner_sheet "Allgemeiner Teil" = true :=
  ⟨by decide, by decide, by decide, by decide, by decide, by decide⟩

/-- C4 (amended): a row answering "See attachment Annex 3" with empty
expected text, on a sheet matching no disallow-reference category, is flagged
NEEDS_EVIDENCE — provided the row passes `should_validate`, is not a
signature row, and the sheet is not in the general category (whose shape
checks can fire first). -/
theorem c4_theorem (s : String) (i : Nat) (qid : Option String) (q : String)
    (hsv : should_validate ⟨s, i, qid, q, "See attachment Annex 3", ""⟩ = true)
    (hsig : is_signature_row ⟨s, i, qid, q, "See attachment Annex 3", ""⟩ = false)
    (hgen : is_allgemeiner_sheet s = false)
    (hfm : is_fondsmanagement_sheet s = false)
    (hrg : is_regta_sheet s = false)
    (hzf : is_zv_fobu_sheet s = false)
    (hvw : is_verwahrstelle_sheet s = false) :
    validate_row ⟨s, i, qid, q, "See attachment Annex 3", ""⟩ RuleConfig.default
      = some (mkF ⟨s, i, qid, q, "See attachment Annex 3", ""⟩ "NEEDS_EVIDENCE"
          "Answer references an attachment/section; requires document evidence retrieval."
          [("reference_detected", DetailVal.bool true)]) := by
  simp [validate_row, hsv, vrSig, hsig, vrEmpty, vrForbidden, vrFilename,
    vrGeneral, hgen, vrFM, hfm, vrRegta, hrg, vrZvFobu, hzf, vrVerwahr, hvw,
    vrInnen, vrRef,
    (by decide : pyStrip "See attachment Annex 3" ≠ ""),
    (by decide : contains_forbidden (pyStrip "See attachment Annex 3")
      RuleConfig.default = none),
    (by decide : expected_requires_filename (pyStrip "") = false),
    (by decide : expected_requires_number_and_text (pyStrip "") = false),
    (by decide : detect_reference (pyStrip "See attachment Annex 3") = true)]

/-- Counterexample to C4 as stated ("other fields arbitrary"): with an empty
question text the row fails `should_validate`, so `validate_row` returns
none rather than a NEEDS_EVIDENCE finding, although the sheet matches no
disallow-reference category. -/
theorem c4_counterexample :
    is_fondsmanagement_sheet "Other" = false ∧
    is_regta_sheet "Other" = false ∧
    is_zv_fobu_sheet "Other" = false ∧
    is_verwahrstelle_sheet "Other" = false ∧
    validate_row ⟨"Other", 1, none, "", "See attachment Annex 3", ""⟩
      RuleConfig.default = none :=
  ⟨by decide, by decide, by decide, by decide, by decide⟩

/-- Witness for C4 at a concrete uncategorized row. -/
theorem c4_witness :
    validate_row c4row RuleConfig.default
      = some (mkF c4row "NEEDS_EVIDENCE"
          "Answer references an attachment/section; requires document evidence retrieval."
          [("reference_detected", DetailVal.bool true)]) :=
  c4_theorem "Depotbank" 5 (some "4.2") "Please describe the controls?"
    (by decide) (by decide) (by decide) (by decide) (by decide) (by decide)
    (by decide)
